import Mathlib

/-!
Verification of the TabPFN-pt data-preparation and ensembled-training core.

The Lean definitions below are shallow embeddings of the Python source:

* `src/tabpfn/priors/real.py` — `TabularDataset` (constructor checks,
  `write`/`read` bundle round trip), `SubsetMaker.mutual_information_subset`,
  and `TabDS.__init__` feature padding;
* `src/tabpfn/train.py` — the real-data loader window-inflation loop, the
  per-criterion loss dispatch of `train_epoch`, the ensembling combination
  and member-acceptance logic, and `concat_embedding`/`restore_embedding`.

Machine floats are idealised as `ℚ`; `numpy`/`torch` tensors are lists of
rationals; Python exceptions become `Except String`.
-/

/-! ## Real-data loader window inflation (train.py lines 90-97)

`DataLoader(train_ds, batch_size=bptt, drop_last=True)` has
`len(dl) = len(train_ds) // bptt`.  The inflation loop is

    while len(dl) % aggregate_k_gradients != 0:
        bptt += 1
        dl = DataLoader(train_ds, batch_size=bptt, ..., drop_last=True)
-/

/-- Number of batches per epoch of a `DataLoader` with `drop_last=True`:
`len(dataset) // batch_size`. -/
def numBatches (n bptt : ℕ) : ℕ := n / bptt

/-- The window-inflation loop of `train` (train.py lines 93-97): repeatedly
increment `bptt` by 1 and rebuild the loader until the number of batches per
epoch is evenly divisible by `aggregate_k_gradients`.  `n` is the dataset
length.  Totality of this definition is the loop's termination: once
`bptt > n` the loader is empty and `0 % k = 0`. -/
def inflate (n k bptt : ℕ) : ℕ :=
  if numBatches n bptt % k = 0 then bptt
  else inflate n k (bptt + 1)
termination_by n + 1 - bptt
decreasing_by
  have hne : numBatches n bptt ≠ 0 := by
    intro h0
    simp [h0] at *
  have hb : bptt ≤ n := by
    by_contra hlt
    exact hne (Nat.div_eq_of_lt (by omega))
  omega

/-- Auxiliary induction for the inflation loop, on the distance from the
point `bptt = n + 1` where the loop must have stopped. -/
theorem inflate_div_le (n k : ℕ) :
    ∀ d bptt, n + 1 - bptt ≤ d →
      numBatches n (inflate n k bptt) % k = 0 ∧ bptt ≤ inflate n k bptt := by
  intro d
  induction d with
  | zero =>
    intro bptt hb
    have hlt : n < bptt := by omega
    have h0 : numBatches n bptt = 0 := Nat.div_eq_of_lt hlt
    rw [inflate]
    simp [h0]
  | succ d ih =>
    intro bptt hb
    by_cases h : numBatches n bptt % k = 0
    · rw [inflate]
      simp [h]
    · have hne : numBatches n bptt ≠ 0 := by
        intro h0
        exact h (by simp [h0])
      have hble : bptt ≤ n := by
        by_contra hlt
        exact hne (Nat.div_eq_of_lt (by omega))
      have step := ih (bptt + 1) (by omega)
      rw [inflate]
      simp only [h, if_false]
      exact ⟨step.1, by omega⟩

/-- C2: for every real-data training run, for every dataset length and every
positive gradient-accumulation factor, after the loader's window-inflation
loop the number of batches per epoch is evenly divisible by the accumulation
factor, and the window size (`bptt`) is never decreased from its initial
value, only incremented in steps of 1; the loop terminates (witnessed by
`inflate` being a total function). -/
theorem loader_window_inflation (n k bptt : ℕ) (hk : 0 < k) :
    numBatches n (inflate n k bptt) % k = 0 ∧ bptt ≤ inflate n k bptt :=
  inflate_div_le n k (n + 1 - bptt) bptt le_rfl

/-- Witness for C2 at dataset length 10, accumulation factor 3, initial
window 4. -/
theorem loader_window_inflation_witness :
    0 < 3 ∧ (numBatches 10 (inflate 10 3 4) % 3 = 0 ∧ 4 ≤ inflate 10 3 4) :=
  ⟨by decide, loader_window_inflation 10 3 4 (by decide)⟩

/-! ## TabularDataset (priors/real.py lines 43-216)

`numpy` matrices become `List (List ℚ)` (row major, rows uniform), vectors
become `List ℚ`.  `split_indeces` is a `numpy` object array of
train/val/test index-set dictionaries; `np.save`/`np.load` round-trips it
verbatim, so it is embedded as a list of index-list triples.  Python
exceptions surface as `Except.error` carrying the exception text. -/

/-- Column count of a 2-D row-major matrix (numpy `X.shape[1]`; rows are
uniform in a numpy array, a hypothesis where it matters). -/
def matCols (X : List (List ℚ)) : ℕ := (X.headD []).length

/-- In-memory tabular dataset, mirroring the fields `TabularDataset.__init__`
assigns (priors/real.py lines 108-118). -/
structure TabularDataset where
  name : String
  X : List (List ℚ)
  y : List ℚ
  cat_idx : List ℕ
  target_type : String
  num_classes : ℤ
  num_features : ℕ
  num_instances : ℕ
  cat_dims : Option (List ℕ)
  split_indeces : Option (List (List ℕ × List ℕ × List ℕ))
  split_source : Option String
deriving DecidableEq

/-- Constructor of `TabularDataset` (priors/real.py lines 44-120): the
`assert` chain over shapes, `cat_idx` range and the `target_type` /
`num_classes` invariant, then field assignment.  The `X is 2-D` / `y is 1-D`
asserts hold at the type level of the embedding. -/
def TabularDataset.construct (name : String) (X : List (List ℚ)) (y : List ℚ)
    (cat_idx : List ℕ) (target_type : String) (num_classes : ℤ)
    (num_features : Option ℕ) (num_instances : Option ℕ)
    (cat_dims : Option (List ℕ))
    (split_indeces : Option (List (List ℕ × List ℕ × List ℕ)))
    (split_source : Option String) : Except String TabularDataset := do
  if X.length ≠ y.length then
    throw "AssertionError: X and y must match along their 0-th dimensions"
  let ni ← match num_instances with
    | some ni =>
      if X.length ≠ ni then
        throw "AssertionError: first dimension of X must be equal to num_instances"
      else if y.length ≠ ni then
        throw "AssertionError: shape of y must be (num_instances, )"
      else pure ni
    | none => pure X.length
  let nf ← match num_features with
    | some nf =>
      if matCols X ≠ nf then
        throw "AssertionError: second dimension of X must be equal to num_features"
      else pure nf
    | none => pure (matCols X)
  if cat_idx.length > 0 then
    if ¬ ((cat_idx.foldr max 0 : ℤ) ≤ (nf : ℤ) - 1) then
      throw "AssertionError: max index in cat_idx exceeds num_features"
  if target_type ∉ ["regression", "classification", "binary"] then
    throw "AssertionError: target_type not recognized"
  if target_type = "regression" ∧ num_classes ≠ 1 then
    throw "AssertionError: num_classes must be 1 for regression"
  if target_type = "binary" ∧ num_classes ≠ 1 then
    throw "AssertionError: num_classes must be 1 for binary"
  if target_type = "classification" ∧ ¬ num_classes > 2 then
    throw "AssertionError: num_classes must be > 2 for classification"
  pure {
    name := name, X := X, y := y, cat_idx := cat_idx,
    target_type := target_type, num_classes := num_classes,
    num_features := nf, num_instances := ni, cat_dims := cat_dims,
    split_indeces := split_indeces, split_source := split_source }

/-- Metadata document written by `get_metadata` (priors/real.py lines
150-160). -/
structure Metadata where
  name : String
  cat_idx : List ℕ
  cat_dims : Option (List ℕ)
  target_type : String
  num_classes : ℤ
  num_features : ℕ
  num_instances : ℕ
  split_source : Option String
deriving DecidableEq

/-- `TabularDataset.get_metadata` (priors/real.py lines 150-160). -/
def TabularDataset.get_metadata (d : TabularDataset) : Metadata :=
  { name := d.name, cat_idx := d.cat_idx, cat_dims := d.cat_dims,
    target_type := d.target_type, num_classes := d.num_classes,
    num_features := d.num_features, num_instances := d.num_instances,
    split_source := d.split_source }

/-- The four artifacts of a dataset directory bundle: `X.npy.gz`,
`y.npy.gz`, `split_indeces.npy.gz` and `metadata.json`. -/
structure Bundle where
  x_file : List (List ℚ)
  y_file : List ℚ
  split_file : Option (List (List ℕ × List ℕ × List ℕ))
  metadata : Metadata
deriving DecidableEq

/-- Python's bitwise complement applied to a `bool` (`~p.exists()` in
`TabularDataset.write`, priors/real.py line 200): `~True` is the integer
`-2` and `~False` is `-1`. -/
def pyInvertBool (b : Bool) : ℤ := if b then -2 else -1

/-- `TabularDataset.write` (priors/real.py lines 196-216).  The target path
is embedded as `Option Bundle` (`none` = the directory does not exist).
Line 200 guards with `assert ~p.exists()`, whose operand is the always
truthy integer `-2`/`-1`; line 203 is `p.mkdir(parents=True,
exist_ok=overwrite)`, which raises `FileExistsError` when the directory
exists and `exist_ok` is false.  On success the four artifacts are
(re)written. -/
def TabularDataset.write (d : TabularDataset) (store : Option Bundle)
    (overwrite : Bool) : Except String (Option Bundle) := do
  if ¬ overwrite then
    if pyInvertBool store.isSome = 0 then
      throw "AssertionError: the path already exists"
  if store.isSome ∧ ¬ overwrite then
    throw "FileExistsError: the path already exists"
  pure (some { x_file := d.X, y_file := d.y, split_file := d.split_indeces,
               metadata := d.get_metadata })

/-- `TabularDataset.read` (priors/real.py lines 162-194): assert the four
artifacts exist, load them, and rebuild the dataset through the constructor
with the metadata keys as keyword arguments. -/
def TabularDataset.read (store : Option Bundle) : Except String TabularDataset := do
  match store with
  | none => throw "AssertionError: path to X does not exist"
  | some b =>
    TabularDataset.construct b.metadata.name b.x_file b.y_file
      b.metadata.cat_idx b.metadata.target_type b.metadata.num_classes
      (some b.metadata.num_features) (some b.metadata.num_instances)
      b.metadata.cat_dims b.split_file b.metadata.split_source

deriving instance DecidableEq for Except

/-- Concrete dataset used to witness the round-trip law. -/
def exampleDataset : TabularDataset :=
  { name := "example", X := [[1, 3], [0, 2]], y := [0, 1], cat_idx := [0],
    target_type := "binary", num_classes := 1, num_features := 2,
    num_instances := 2, cat_dims := none,
    split_indeces := some [([0], [1], [1])], split_source := some "random" }

/-- C5: for every `TabularDataset` satisfying the constructor invariants
(expressed as: the constructor, run on the dataset's own fields, succeeds
and returns it), `write` to a fresh directory followed by `read` from that
directory reproduces `X`, `y`, `split_indeces`, and every metadata field
exactly. -/
theorem tabular_dataset_write_read_roundtrip (d : TabularDataset)
    (h : TabularDataset.construct d.name d.X d.y d.cat_idx d.target_type
        d.num_classes (some d.num_features) (some d.num_instances) d.cat_dims
        d.split_indeces d.split_source = .ok d) :
    ∃ b : Bundle, d.write none false = .ok (some b) ∧
      TabularDataset.read (some b) = .ok d ∧
      b.x_file = d.X ∧ b.y_file = d.y ∧ b.split_file = d.split_indeces ∧
      b.metadata = d.get_metadata := by
  refine ⟨{ x_file := d.X, y_file := d.y, split_file := d.split_indeces,
            metadata := d.get_metadata }, ?_, ?_, rfl, rfl, rfl, rfl⟩
  · simp only [TabularDataset.write, pyInvertBool, Option.isSome_none]
    rfl
  · simpa [TabularDataset.read, TabularDataset.get_metadata] using h

/-- Witness for C5 at `exampleDataset`. -/
theorem tabular_dataset_write_read_roundtrip_witness :
    (TabularDataset.construct exampleDataset.name exampleDataset.X
        exampleDataset.y exampleDataset.cat_idx exampleDataset.target_type
        exampleDataset.num_classes (some exampleDataset.num_features)
        (some exampleDataset.num_instances) exampleDataset.cat_dims
        exampleDataset.split_indeces exampleDataset.split_source
      = .ok exampleDataset) ∧
    (∃ b : Bundle, exampleDataset.write none false = .ok (some b) ∧
      TabularDataset.read (some b) = .ok exampleDataset ∧
      b.x_file = exampleDataset.X ∧ b.y_file = exampleDataset.y ∧
      b.split_file = exampleDataset.split_indeces ∧
      b.metadata = exampleDataset.get_metadata) :=
  ⟨by decide, tabular_dataset_write_read_roundtrip exampleDataset (by decide)⟩

/-- C8: writing a dataset to a path that already exists fails (the
`FileExistsError` raised by `p.mkdir(parents=True, exist_ok=False)`, since
the `assert ~p.exists()` guard is inert — its operand is a truthy bitwise
complement) and produces no new bundle, so the existing bundle is left
unmodified; with the overwrite flag set, `write` succeeds and stores the
dataset's four artifacts. -/
theorem write_existing_path_guard (d : TabularDataset) (b : Bundle) :
    d.write (some b) false = .error "FileExistsError: the path already exists" ∧
    ∀ store : Option Bundle, d.write store true =
      .ok (some { x_file := d.X, y_file := d.y,
                  split_file := d.split_indeces,
                  metadata := d.get_metadata }) := by
  constructor
  · rfl
  · intro store
    simp only [TabularDataset.write, not_true, and_false, if_false, ite_false]
    simp
    rfl

/-! ## TabDS feature padding (priors/real.py lines 530-548)

`TabDS.__init__` converts `X` to a float tensor and then guards

    if len(self.X.shape) > num_features:
        raise ValueError(f"X.shape[1] = {self.X.shape[1]} > num_features = {num_features}")
    if len(self.X.shape) < num_features:
        self.X = torch.cat([self.X, torch.zeros(self.X.shape[0], num_features - self.X.shape[1])], dim=1)

`len(self.X.shape)` is the number of tensor dimensions — always `2` for the
2-D inputs this class receives — not the feature count `self.X.shape[1]`
that the raise message prints.  `torch.zeros` with a negative second size
raises `RuntimeError`. -/

/-- The dimension count `len(self.X.shape)` of the 2-D input tensor. -/
def tabDSNdim : ℕ := 2

/-- Shape-and-padding logic of `TabDS.__init__` (priors/real.py lines
535-542), returning the stored `self.X`. -/
def tabDSInitX (X : List (List ℚ)) (num_features : ℕ) :
    Except String (List (List ℚ)) := do
  if tabDSNdim > num_features then
    throw "ValueError: X.shape[1] > num_features"
  if tabDSNdim < num_features then
    if (num_features : ℤ) - (matCols X : ℤ) < 0 then
      throw "RuntimeError: torch.zeros with a negative dimension"
    else
      pure (X.map (fun row => row ++ List.replicate (num_features - matCols X) 0))
  else
    pure X

set_option maxRecDepth 8000 in
/-- C3 (code bug): with the configured maximum `num_features = 100` (the
hard-coded value in `train`), a dataset whose feature count 150 is strictly
above the maximum is NOT rejected by the intended `ValueError` guard —
`len(self.X.shape) = 2 > 100` is false — and instead the padding branch
`2 < 100` attempts `torch.zeros(rows, 100 - 150)`, raising `RuntimeError`.
A dataset whose feature count 3 is strictly below a maximum of `2` is not
padded at all (the branch `2 < 2` is false), leaving the stored input at 3
features.  Both runs contradict the claimed guard on `X.shape[1]`, whose
comparison the raise message itself prints. -/
theorem tabds_feature_guard_bug :
    tabDSInitX [List.replicate 150 1] 100
        = .error "RuntimeError: torch.zeros with a negative dimension" ∧
    tabDSInitX [List.replicate 150 1] 100
        ≠ .error "ValueError: X.shape[1] > num_features" ∧
    tabDSInitX [[1, 2, 3]] 2 = .ok [[1, 2, 3]] := by
  refine ⟨by decide, by decide, by decide⟩

/-! ## SubsetMaker mutual-information feature selection
(priors/real.py lines 218-274)

`SelectKBest(mutual_info_classif, k)` is embedded with the scoring function
abstract (an external sklearn collaborator): `fit` records the indices of
the `k` best-scoring columns, `transform` selects exactly those columns.
The fitted selector is the cached `self.feature_selector`. -/

/-- Subset-policy state (`SubsetMaker.__init__`, priors/real.py lines
219-227).  `feature_selector` holds the column indices chosen by a fitted
`SelectKBest`, or `none` before any fit. -/
structure SubsetMaker where
  subset_features : ℤ
  subset_rows : ℤ
  subset_features_method : String
  subset_rows_method : String
  row_selector : Option Unit
  feature_selector : Option (List ℕ)
deriving DecidableEq

/-- `SubsetMaker.__init__`: both selectors start out `None`. -/
def SubsetMaker.construct (subset_features subset_rows : ℤ)
    (subset_features_method subset_rows_method : String) : SubsetMaker :=
  { subset_features := subset_features, subset_rows := subset_rows,
    subset_features_method := subset_features_method,
    subset_rows_method := subset_rows_method,
    row_selector := none, feature_selector := none }

/-- Column subset chosen by `SelectKBest.fit`: the indices of the `k`
best-scoring columns (stable descending sort of `argsort`, as sklearn's
`get_support(indices=True)` returns them in ascending order). -/
def selectKBestFit (k : ℕ) (scores : List ℚ) : List ℕ :=
  (((List.range scores.length).mergeSort
      (fun i j => decide (scores.getD j 0 < scores.getD i 0 ∨
        (scores.getD i 0 = scores.getD j 0 ∧ i ≤ j)))).take k).mergeSort
    (fun i j => decide (i ≤ j))

/-- `SelectKBest.transform`: keep exactly the selected columns. -/
def transformCols (sel : List ℕ) (X : List (List ℚ)) : List (List ℚ) :=
  X.map (fun row => sel.map (fun j => row.getD j 0))

/-- `SubsetMaker.mutual_information_subset` (priors/real.py lines 253-274).
`score` stands for `mutual_info_classif`'s per-column scores.  On a
`"train"` call with no cached selector, a `SelectKBest` is fitted and
cached; on every other call the cached selector's `transform` is applied —
with `self.feature_selector` still `None`, Python raises `AttributeError`.
The state of the maker is returned alongside `(X, y)`. -/
def SubsetMaker.mutual_information_subset (sm : SubsetMaker)
    (score : List (List ℚ) → List ℚ → List ℚ)
    (X : List (List ℚ)) (y : List ℚ) (split : String) :
    Except String (SubsetMaker × List (List ℚ) × List ℚ) := do
  if split ∉ ["train", "val", "test"] then
    throw "ValueError: split must be train, val, or test"
  if split = "train" then
    match sm.feature_selector with
    | none =>
      let sel := selectKBestFit sm.subset_features.toNat (score X y)
      pure ({ sm with feature_selector := some sel }, transformCols sel X, y)
    | some sel => pure (sm, transformCols sel X, y)
  else
    match sm.feature_selector with
    | none => throw "AttributeError: NoneType object has no attribute transform"
    | some sel => pure (sm, transformCols sel X, y)

/-- One recorded later call to `mutual_information_subset`. -/
structure MICall where
  score : List (List ℚ) → List ℚ → List ℚ
  X : List (List ℚ)
  y : List ℚ
  split : String

/-- Run a sequence of `mutual_information_subset` calls, threading the
maker's state and collecting the returned feature matrices. -/
def miCalls (sm : SubsetMaker) : List MICall →
    Except String (SubsetMaker × List (List (List ℚ)))
  | [] => pure (sm, [])
  | c :: rest => do
    let (sm', Xout, _) ← sm.mutual_information_subset c.score c.X c.y c.split
    let (smf, outs) ← miCalls sm' rest
    pure (smf, Xout :: outs)

/-- With a cached selector, every call with a valid split leaves the state
untouched and applies exactly the cached column subset. -/
theorem miCalls_cached (sel : List ℕ) (calls : List MICall)
    (hc : ∀ c ∈ calls, c.split ∈ ["train", "val", "test"]) :
    ∀ sm : SubsetMaker, sm.feature_selector = some sel →
      miCalls sm calls = .ok (sm, calls.map (fun c => transformCols sel c.X)) := by
  induction calls with
  | nil => intro sm _; rfl
  | cons c rest ih =>
    intro sm hsm
    have hcv : c.split ∈ ["train", "val", "test"] := hc c (by simp)
    have hrest := ih (fun c hc' => hc c (by simp [hc']))
    by_cases ht : c.split = "train"
    · simp [miCalls, SubsetMaker.mutual_information_subset, ht, hsm,
        hrest sm hsm]
    · simp [miCalls, SubsetMaker.mutual_information_subset, ht, hcv, hsm,
        hrest sm hsm]

/-- C6: for a `SubsetMaker` with the mutual-information feature policy, the
selector is fitted exactly once, on the first `"train"` call; every later
call, with any split value and any input, applies the cached selector's
transform — selecting exactly the column subset chosen during the first fit
— and never re-fits (the maker's state is unchanged through the whole
sequence of later calls). -/
theorem mutual_information_fit_once (sm : SubsetMaker)
    (h : sm.feature_selector = none)
    (score : List (List ℚ) → List ℚ → List ℚ)
    (X : List (List ℚ)) (y : List ℚ)
    (calls : List MICall)
    (hc : ∀ c ∈ calls, c.split ∈ ["train", "val", "test"]) :
    ∃ sel : List ℕ,
      sel = selectKBestFit sm.subset_features.toNat (score X y) ∧
      sm.mutual_information_subset score X y "train"
        = .ok ({ sm with feature_selector := some sel }, transformCols sel X, y) ∧
      miCalls { sm with feature_selector := some sel } calls
        = .ok ({ sm with feature_selector := some sel },
               calls.map (fun c => transformCols sel c.X)) := by
  refine ⟨_, rfl, ?_, ?_⟩
  · simp only [SubsetMaker.mutual_information_subset, h]
    rfl
  · exact miCalls_cached _ calls hc _ rfl

/-- Example subset maker for the selection witnesses (selector unfitted). -/
def exampleMaker : SubsetMaker :=
  SubsetMaker.construct 2 (-1) "mutual_information" "random"

/-- Example stand-in for `mutual_info_classif` column scores. -/
def exampleScore : List (List ℚ) → List ℚ → List ℚ := fun X _ => X.headD []

/-- Example later calls (a `"val"` and a `"test"` call on different data). -/
def exampleCalls : List MICall :=
  [{ score := exampleScore, X := [[5, 6, 7]], y := [1], split := "val" },
   { score := fun _ _ => [], X := [[8, 9, 10], [11, 12, 13]], y := [0, 1],
     split := "test" }]

/-- Witness for C6 at `exampleMaker` and `exampleCalls`. -/
theorem mutual_information_fit_once_witness :
    (exampleMaker.feature_selector = none) ∧
    (∀ c ∈ exampleCalls, c.split ∈ ["train", "val", "test"]) ∧
    (∃ sel : List ℕ,
      sel = selectKBestFit exampleMaker.subset_features.toNat
          (exampleScore [[1, 2, 3]] [0]) ∧
      exampleMaker.mutual_information_subset exampleScore [[1, 2, 3]] [0] "train"
        = .ok ({ exampleMaker with feature_selector := some sel },
               transformCols sel [[1, 2, 3]], [0]) ∧
      miCalls { exampleMaker with feature_selector := some sel } exampleCalls
        = .ok ({ exampleMaker with feature_selector := some sel },
               exampleCalls.map (fun c => transformCols sel c.X))) :=
  ⟨rfl, by simp [exampleCalls],
   mutual_information_fit_once exampleMaker rfl exampleScore [[1, 2, 3]] [0]
     exampleCalls (by simp [exampleCalls])⟩

/-- C10: calling `mutual_information_subset` with a non-`"train"` split
before any `"train"` call has fitted the selector never returns a feature
subset: it fails with an error (`AttributeError` for `"val"`/`"test"`, where
the code calls `.transform` on the still-`None` cached selector, and
`ValueError` for unrecognized split values). -/
theorem mutual_information_unfitted_error (sm : SubsetMaker)
    (score : List (List ℚ) → List ℚ → List ℚ)
    (X : List (List ℚ)) (y : List ℚ) (split : String)
    (h : sm.feature_selector = none) (hs : split ≠ "train") :
    ∃ e, sm.mutual_information_subset score X y split = .error e := by
  by_cases hv : split ∈ ["train", "val", "test"]
  · refine ⟨"AttributeError: NoneType object has no attribute transform", ?_⟩
    simp only [SubsetMaker.mutual_information_subset, hv, hs, h]
    simp [hv, hs]
    rfl
  · refine ⟨"ValueError: split must be train, val, or test", ?_⟩
    simp only [SubsetMaker.mutual_information_subset]
    simp [hv]
    rfl

/-- Witness for C10: a `"val"` call on a fresh (unfitted) maker errors. -/
theorem mutual_information_unfitted_error_witness :
    (exampleMaker.feature_selector = none) ∧ ("val" : String) ≠ "train" ∧
    ∃ e, exampleMaker.mutual_information_subset exampleScore [[1, 2, 3]] [0]
        "val" = .error e :=
  ⟨rfl, by decide,
   mutual_information_unfitted_error exampleMaker exampleScore [[1, 2, 3]] [0]
     "val" rfl (by decide)⟩

/-! ## Loss dispatch of `train_epoch` (train.py lines 264-277)

The model output is a torch tensor, embedded as a flat row-major data list
with an explicit shape.  The loss criteria themselves (`GaussianNLLLoss`,
`MSELoss`, `BCEWithLogitsLoss`, `CrossEntropyLoss`) are external torch
collaborators, abstracted as element-wise functions; the dispatch, the
query-portion restriction of the targets, the two-channel guard and the
mean/abs-variance interpretation are the embedded code. -/

/-- A torch tensor: shape plus row-major flattened data. -/
structure PyTensor where
  shape : List ℕ
  data : List ℚ
deriving DecidableEq

/-- The size of a tensor's last dimension, `output.shape[-1]`. -/
def PyTensor.lastDim (t : PyTensor) : ℕ := t.shape.getLastD 0

/-- `output[..., i]` for a tensor with last dimension `d`: the flat elements
at positions congruent to `i` mod `d` (row-major layout). -/
def lastAxisSlice (t : PyTensor) (i : ℕ) : List ℚ :=
  (t.data.enum.filter (fun p => p.1 % t.lastDim = i)).map (fun p => p.2)

/-- Criterion kind, as discriminated by the `isinstance` chain of
`train_epoch`. -/
inductive Criterion where
  | gaussianNLL
  | mse
  | bce
  | crossEntropy (n_out : ℕ)
deriving DecidableEq

/-- Split a flat list into consecutive chunks of `n` (the
`output.reshape(-1, n_out)` of the cross-entropy branch). -/
def chunksOf (n : ℕ) (l : List ℚ) : List (List ℚ) :=
  if n = 0 ∨ l = [] then []
  else l.take n :: chunksOf n (l.drop n)
termination_by l.length
decreasing_by
  rename_i h
  push_neg at h
  have : l ≠ [] := h.2
  have : 0 < l.length := List.length_pos.mpr this
  have : 0 < n := Nat.pos_of_ne_zero h.1
  simp [List.length_drop]
  omega

/-- The LOSS step of `train_epoch` (train.py lines 264-277): restrict the
targets to the query portion (`targets = targets[single_eval_pos:]`), then
dispatch on the criterion.  The Gaussian branch asserts
`output.shape[-1] == 2` and feeds `(output[..., 0], targets,
var=output[..., 1].abs())` to the criterion; MSE/BCE flatten; cross-entropy
reshapes to `(-1, n_out)`. -/
def computeLosses (gnll : ℚ → ℚ → ℚ → ℚ) (mseF bceF : ℚ → ℚ → ℚ)
    (ceF : List ℚ → ℚ → ℚ) (criterion : Criterion) (output : PyTensor)
    (targets : List ℚ) (single_eval_pos : Option ℕ) :
    Except String (List ℚ) := do
  let targets := match single_eval_pos with
    | some pos => targets.drop pos
    | none => targets
  match criterion with
  | .gaussianNLL =>
    if output.lastDim ≠ 2 then
      throw "AssertionError: need to write a little bit of code to handle multiple regression targets at once"
    let mean_pred := lastAxisSlice output 0
    let var_pred := (lastAxisSlice output 1).map (fun v => |v|)
    pure (List.zipWith (fun mt v => gnll mt.1 mt.2 v) (mean_pred.zip targets)
      var_pred)
  | .mse => pure (List.zipWith mseF output.data targets)
  | .bce => pure (List.zipWith bceF output.data targets)
  | .crossEntropy n_out =>
    pure (List.zipWith ceF (chunksOf n_out output.data) targets)

/-- C9: on the Gaussian negative-log-likelihood path, a model output whose
last dimension is not exactly 2 fails the precondition check before any loss
is produced; when it is 2, the output is interpreted as a mean /
abs(variance) pair — channel 0 is the mean and the absolute value of
channel 1 is the variance fed to the criterion. -/
theorem gaussian_nll_two_channel_guard (gnll : ℚ → ℚ → ℚ → ℚ)
    (mseF bceF : ℚ → ℚ → ℚ) (ceF : List ℚ → ℚ → ℚ) (output : PyTensor)
    (targets : List ℚ) (single_eval_pos : Option ℕ) :
    (output.lastDim ≠ 2 →
      computeLosses gnll mseF bceF ceF .gaussianNLL output targets
          single_eval_pos
        = .error "AssertionError: need to write a little bit of code to handle multiple regression targets at once") ∧
    (output.lastDim = 2 →
      computeLosses gnll mseF bceF ceF .gaussianNLL output targets
          single_eval_pos
        = .ok (List.zipWith (fun mt v => gnll mt.1 mt.2 v)
            ((lastAxisSlice output 0).zip
              (match single_eval_pos with
                | some pos => targets.drop pos
                | none => targets))
            ((lastAxisSlice output 1).map (fun v => |v|)))) := by
  constructor
  · intro h
    simp [computeLosses, h]
    rfl
  · intro h
    simp [computeLosses, h]
    rfl

/-- Three-channel output used to witness the guard's failure side. -/
def exampleOut3 : PyTensor := { shape := [2, 3], data := [1, 2, 3, 4, 5, 6] }

/-- Two-channel output used to witness the mean/abs-variance side. -/
def exampleOut2 : PyTensor := { shape := [2, 2], data := [1, -2, 3, -4] }

/-- Trivial stand-ins for the external torch loss criteria. -/
def zeroLoss3 : ℚ → ℚ → ℚ → ℚ := fun _ _ _ => 0

/-- Trivial stand-in for the element-wise two-argument criteria. -/
def zeroLoss2 : ℚ → ℚ → ℚ := fun _ _ => 0

/-- Trivial stand-in for the cross-entropy row criterion. -/
def zeroLossCE : List ℚ → ℚ → ℚ := fun _ _ => 0

/-- Witness for C9: both sides of the guard at concrete tensors. -/
theorem gaussian_nll_two_channel_guard_witness :
    (exampleOut3.lastDim ≠ 2 ∧
      computeLosses zeroLoss3 zeroLoss2 zeroLoss2 zeroLossCE .gaussianNLL
          exampleOut3 [0, 1] none
        = .error "AssertionError: need to write a little bit of code to handle multiple regression targets at once") ∧
    (exampleOut2.lastDim = 2 ∧
      computeLosses zeroLoss3 zeroLoss2 zeroLoss2 zeroLossCE .gaussianNLL
          exampleOut2 [0, 1] none
        = .ok (List.zipWith (fun mt v => zeroLoss3 mt.1 mt.2 v)
            ((lastAxisSlice exampleOut2 0).zip [0, 1])
            ((lastAxisSlice exampleOut2 1).map (fun v => |v|)))) :=
  ⟨⟨by decide,
    (gaussian_nll_two_channel_guard zeroLoss3 zeroLoss2 zeroLoss2 zeroLossCE
      exampleOut3 [0, 1] none).1 (by decide)⟩,
   ⟨by decide,
    (gaussian_nll_two_channel_guard zeroLoss3 zeroLoss2 zeroLoss2 zeroLossCE
      exampleOut2 [0, 1] none).2 (by decide)⟩⟩

/-! ## Ensembling combination and member acceptance (train.py lines 583-626)

Member outputs are (rows × classes) score matrices over the held-out
targets.  `np.round(x, 3)` rounds half to even at three decimals; ECE/TACE
(`uncertainty_metrics`) are external collaborators, abstracted as functions
of the scores and labels.

The additive branch (lines 604-608) is embedded exactly as written:
`current_outs = output_dict[0]` binds the same tensor object, and
`current_outs += boost_res` adds in place, so the additions are stored back
into entry 0 of the output dict. -/

/-- Element-wise sum of two equally-shaped score matrices. -/
def addOut (a b : List (List ℚ)) : List (List ℚ) :=
  List.zipWith (List.zipWith (· + ·)) a b

/-- `torch.mul(c, o)`: scalar multiple of a score matrix. -/
def smulOut (c : ℚ) (o : List (List ℚ)) : List (List ℚ) :=
  o.map (List.map (fun v => c * v))

/-- `torch.zeros_like(o)`. -/
def zerosLike (o : List (List ℚ)) : List (List ℚ) :=
  o.map (List.map (fun _ => 0))

/-- Row argmax of `torch.max(-, 1)`: the index of the first maximal entry. -/
def argmaxRow (r : List ℚ) : ℕ :=
  (r.enum.foldl (fun best p => if best.2 < p.2 then p else best)
    (0, r.headD 0)).1

/-- Per-row predictions of a score matrix. -/
def predsOf (o : List (List ℚ)) : List ℕ := o.map argmaxRow

/-- `(current_preds == test_targets).sum().item()`. -/
def correctCount (p t : List ℕ) : ℕ :=
  (List.zipWith (fun a b => if a = b then (1 : ℕ) else 0) p t).sum

/-- `np.round` to the nearest integer, rounding half to even. -/
def halfEvenRound (q : ℚ) : ℤ :=
  if q - ⌊q⌋ < 1 / 2 then ⌊q⌋
  else if 1 / 2 < q - ⌊q⌋ then ⌊q⌋ + 1
  else if ⌊q⌋ % 2 = 0 then ⌊q⌋ else ⌊q⌋ + 1

/-- `np.round(q, 3)`. -/
def npRound3 (q : ℚ) : ℚ := (halfEvenRound (q * 1000) : ℚ) / 1000

/-- `boosting_acc = np.round(correct / total, 3)` of a combined output
against the held-out targets (train.py lines 609-612). -/
def ensembleAccuracy (o : List (List ℚ)) (t : List ℕ) : ℚ :=
  npRound3 ((correctCount (predsOf o) t : ℚ) / (t.length : ℚ))

/-- One `ensembling_acc` record (train.py lines 429-433). -/
structure AccRecord where
  accuracy : ℚ
  ece : ℚ
  tace : ℚ
deriving DecidableEq

/-- `update_ensemble_acc` (train.py lines 426-434): a fresh record holding
the new accuracy and the calibration metrics of the combined scores. -/
def update_ensemble_acc (eceF taceF : List (List ℚ) → List ℕ → ℚ)
    (labels : List ℕ) (probs : List (List ℚ)) (boosting_acc : ℚ) :
    AccRecord :=
  { accuracy := boosting_acc, ece := eceF probs labels,
    tace := taceF probs labels }

/-- Ensembling state threaded through the member loop: `output_dict` (entry
`j` is member `j`'s slot), `ensembling_acc` (entry `j` is member `j`'s
record), and the most recently computed `current_outs`. -/
structure EnsState where
  output_dict : List (List (List ℚ))
  ensembling_acc : List AccRecord
  last_combined : List (List ℚ)
deriving DecidableEq

/-- Combination step of one ensembling iteration (train.py lines 597-608),
acting on the dict `D = output_dict[0..i]`; returns the dict after the step
together with `current_outs`.

Averaged branch (lines 598-602): `current_outs` starts from a fresh
`torch.zeros_like(output_dict[0])`, accumulates every member and divides by
`i + 1`; the dict is untouched.

Additive branch (lines 603-608): `current_outs = output_dict[0]` aliases
entry 0 and `current_outs += torch.mul(boosting_lr, output_dict[j])`
mutates it in place, so entry 0 of the dict ends up holding the combined
output (`D.set 0 current`). -/
def combineOutputs (average_ensemble : Bool) (boosting_lr : ℚ)
    (D : List (List (List ℚ))) : List (List (List ℚ)) × List (List ℚ) :=
  if average_ensemble then
    (D, smulOut (1 / (((D.length - 1 : ℕ) : ℚ) + 1))
      (D.foldl addOut (zerosLike (D.headD []))))
  else
    let current := (D.drop 1).foldl
      (fun c o => addOut c (smulOut boosting_lr o)) (D.headD [])
    (D.set 0 current, current)

/-- One iteration of the ensembling loop (train.py lines 585-621) after the
new member's training produced `newOut` (= `output_dict[i]`): append the
member, combine (`combineOutputs`), compute `boosting_acc` against the
held-out targets, then accept or reject (lines 615-621) — if the combined
accuracy does not strictly exceed the previous record, `output_dict[i] =
torch.zeros_like(output_dict[i])` and `ensembling_acc[i] =
ensembling_acc[i-1]`; otherwise `ensembling_acc[i] =
update_ensemble_acc(boosting_acc)`. -/
def ensembleIter (average_ensemble : Bool) (boosting_lr : ℚ)
    (eceF taceF : List (List ℚ) → List ℕ → ℚ) (test_targets : List ℕ)
    (st : EnsState) (newOut : List (List ℚ)) : EnsState :=
  let D := st.output_dict ++ [newOut]
  let i := D.length - 1
  let D' := (combineOutputs average_ensemble boosting_lr D).1
  let current := (combineOutputs average_ensemble boosting_lr D).2
  let boosting_acc := ensembleAccuracy current test_targets
  if boosting_acc ≤ (st.ensembling_acc.getLastD ⟨0, 0, 0⟩).accuracy then
    { output_dict := D'.set i (zerosLike (D'.getD i [])),
      ensembling_acc :=
        st.ensembling_acc ++ [st.ensembling_acc.getLastD ⟨0, 0, 0⟩],
      last_combined := current }
  else
    { output_dict := D',
      ensembling_acc := st.ensembling_acc ++
        [update_ensemble_acc eceF taceF test_targets current boosting_acc],
      last_combined := current }

/-- The whole ensembling loop (train.py lines 583-626): start from member
0's recorded output and accuracy record, then fold the per-member iteration
over the outputs the later training runs produce. -/
def runEnsemble (average_ensemble : Bool) (boosting_lr : ℚ)
    (eceF taceF : List (List ℚ) → List ℕ → ℚ) (test_targets : List ℕ)
    (member0 : List (List ℚ)) (rec0 : AccRecord)
    (members : List (List (List ℚ))) : EnsState :=
  members.foldl (ensembleIter average_ensemble boosting_lr eceF taceF
    test_targets) ⟨[member0], [rec0], member0⟩

/-- Lengths are preserved by the combination step. -/
theorem combineOutputs_fst_length (avg : Bool) (lr : ℚ)
    (D : List (List (List ℚ))) :
    (combineOutputs avg lr D).1.length = D.length := by
  cases avg <;> simp [combineOutputs]

/-- The combination step leaves the newest member's dict entry unchanged
(only entry 0 can be overwritten, by the additive in-place aliasing). -/
theorem combineOutputs_fst_getElem_last (avg : Bool) (lr : ℚ)
    (pre : List (List (List ℚ))) (newOut : List (List ℚ))
    (hpre : pre ≠ []) :
    (combineOutputs avg lr (pre ++ [newOut])).1[pre.length]? = some newOut := by
  have hpos : 0 < pre.length := List.length_pos.mpr hpre
  cases avg
  · simp only [combineOutputs, Bool.false_eq_true, if_false]
    rw [@List.getElem?_set_ne _ _ 0 pre.length (by omega)]
    exact List.getElem?_concat_length _ _
  · simp only [combineOutputs, if_true]
    exact List.getElem?_concat_length _ _

/-- C4: in every ensembling iteration (boosting or random-reinit), if the
newly combined output's accuracy does not strictly exceed the previous best
recorded accuracy, member `i`'s stored output is replaced by an all-zero
tensor of the same shape and the accuracy record for member `i` is the
carried-over record of member `i-1`; otherwise the record is updated with
the new accuracy and its calibration metrics (and the member's output is
kept). -/
theorem ensemble_member_acceptance (avg : Bool) (lr : ℚ)
    (eceF taceF : List (List ℚ) → List ℕ → ℚ) (targets : List ℕ)
    (st : EnsState) (newOut : List (List ℚ)) (st' : EnsState)
    (prev : AccRecord) (acc : ℚ)
    (hd : st.output_dict ≠ [])
    (hst : st' = ensembleIter avg lr eceF taceF targets st newOut)
    (hprev : prev = st.ensembling_acc.getLastD ⟨0, 0, 0⟩)
    (hacc : acc = ensembleAccuracy st'.last_combined targets) :
    (acc ≤ prev.accuracy →
      st'.output_dict[st.output_dict.length]? = some (zerosLike newOut) ∧
      st'.ensembling_acc = st.ensembling_acc ++ [prev]) ∧
    (prev.accuracy < acc →
      st'.output_dict[st.output_dict.length]? = some newOut ∧
      st'.ensembling_acc = st.ensembling_acc ++
        [update_ensemble_acc eceF taceF targets st'.last_combined acc]) := by
  have hpos : 0 < st.output_dict.length := List.length_pos.mpr hd
  have hiter : ensembleIter avg lr eceF taceF targets st newOut =
      (if ensembleAccuracy
            (combineOutputs avg lr (st.output_dict ++ [newOut])).2 targets ≤
          (st.ensembling_acc.getLastD ⟨0, 0, 0⟩).accuracy then
        { output_dict :=
            (combineOutputs avg lr (st.output_dict ++ [newOut])).1.set
              ((st.output_dict ++ [newOut]).length - 1)
              (zerosLike
                ((combineOutputs avg lr (st.output_dict ++ [newOut])).1.getD
                  ((st.output_dict ++ [newOut]).length - 1) [])),
          ensembling_acc :=
            st.ensembling_acc ++ [st.ensembling_acc.getLastD ⟨0, 0, 0⟩],
          last_combined :=
            (combineOutputs avg lr (st.output_dict ++ [newOut])).2 }
      else
        { output_dict := (combineOutputs avg lr (st.output_dict ++ [newOut])).1,
          ensembling_acc := st.ensembling_acc ++
            [update_ensemble_acc eceF taceF targets
              (combineOutputs avg lr (st.output_dict ++ [newOut])).2
              (ensembleAccuracy
                (combineOutputs avg lr (st.output_dict ++ [newOut])).2
                targets)],
          last_combined :=
            (combineOutputs avg lr (st.output_dict ++ [newOut])).2 }) := rfl
  have hlast : st'.last_combined =
      (combineOutputs avg lr (st.output_dict ++ [newOut])).2 := by
    rw [hst, hiter]
    split <;> rfl
  have hlen1 : (combineOutputs avg lr (st.output_dict ++ [newOut])).1.length
      = st.output_dict.length + 1 := by
    rw [combineOutputs_fst_length]
    simp
  have hlast_entry :
      (combineOutputs avg lr (st.output_dict ++ [newOut])).1[st.output_dict.length]?
        = some newOut := combineOutputs_fst_getElem_last avg lr _ _ hd
  have hsublen : (st.output_dict ++ [newOut]).length - 1
      = st.output_dict.length := by simp
  by_cases hc : ensembleAccuracy
      (combineOutputs avg lr (st.output_dict ++ [newOut])).2 targets ≤
      (st.ensembling_acc.getLastD ⟨0, 0, 0⟩).accuracy
  · have hstval : st' =
        { output_dict :=
            (combineOutputs avg lr (st.output_dict ++ [newOut])).1.set
              ((st.output_dict ++ [newOut]).length - 1)
              (zerosLike
                ((combineOutputs avg lr (st.output_dict ++ [newOut])).1.getD
                  ((st.output_dict ++ [newOut]).length - 1) [])),
          ensembling_acc :=
            st.ensembling_acc ++ [st.ensembling_acc.getLastD ⟨0, 0, 0⟩],
          last_combined :=
            (combineOutputs avg lr (st.output_dict ++ [newOut])).2 } := by
      rw [hst, hiter, if_pos hc]
    have hgd :
        (combineOutputs avg lr (st.output_dict ++ [newOut])).1.getD
          st.output_dict.length [] = newOut := by
      rw [List.getD_eq_getElem?_getD, hlast_entry]
      rfl
    constructor
    · intro _
      refine ⟨?_, ?_⟩
      · rw [hstval]
        simp only [hsublen, hgd]
        apply List.getElem?_set_self
        rw [hlen1]
        omega
      · rw [hstval, hprev]
    · intro hgt
      exfalso
      rw [hacc, hlast, hprev] at hgt
      exact absurd hc (not_le.mpr hgt)
  · have hstval : st' =
        { output_dict := (combineOutputs avg lr (st.output_dict ++ [newOut])).1,
          ensembling_acc := st.ensembling_acc ++
            [update_ensemble_acc eceF taceF targets
              (combineOutputs avg lr (st.output_dict ++ [newOut])).2
              (ensembleAccuracy
                (combineOutputs avg lr (st.output_dict ++ [newOut])).2
                targets)],
          last_combined :=
            (combineOutputs avg lr (st.output_dict ++ [newOut])).2 } := by
      rw [hst, hiter, if_neg hc]
    constructor
    · intro hle
      exfalso
      rw [hacc, hlast, hprev] at hle
      exact hc hle
    · intro _
      refine ⟨?_, ?_⟩
      · rw [hstval]
        exact hlast_entry
      · rw [hstval, hacc, hlast]

/-- Trivial stand-in for the external `um.ece` / `um.tace` calibration
metrics. -/
def zeroCal : List (List ℚ) → List ℕ → ℚ := fun _ _ => 0

/-- Ensembling state after member 0 (one recorded output, accuracy 1/2). -/
def exEnsState : EnsState :=
  { output_dict := [[[1, 0], [1, 0]]],
    ensembling_acc := [⟨1 / 2, 0, 0⟩],
    last_combined := [[1, 0], [1, 0]] }

/-- Newly trained member output used in the acceptance witness. -/
def exNewMember : List (List ℚ) := [[0, 0], [0, 2]]

/-- Witness for C4 at a concrete one-member state and new member. -/
theorem ensemble_member_acceptance_witness :
    exEnsState.output_dict ≠ [] ∧
    ((ensembleAccuracy
        (ensembleIter false (1 / 2) zeroCal zeroCal [0, 1] exEnsState
          exNewMember).last_combined [0, 1] ≤
        (exEnsState.ensembling_acc.getLastD ⟨0, 0, 0⟩).accuracy →
      (ensembleIter false (1 / 2) zeroCal zeroCal [0, 1] exEnsState
          exNewMember).output_dict[exEnsState.output_dict.length]?
          = some (zerosLike exNewMember) ∧
      (ensembleIter false (1 / 2) zeroCal zeroCal [0, 1] exEnsState
          exNewMember).ensembling_acc
          = exEnsState.ensembling_acc ++
            [exEnsState.ensembling_acc.getLastD ⟨0, 0, 0⟩]) ∧
     ((exEnsState.ensembling_acc.getLastD ⟨0, 0, 0⟩).accuracy <
        ensembleAccuracy
          (ensembleIter false (1 / 2) zeroCal zeroCal [0, 1] exEnsState
            exNewMember).last_combined [0, 1] →
      (ensembleIter false (1 / 2) zeroCal zeroCal [0, 1] exEnsState
          exNewMember).output_dict[exEnsState.output_dict.length]?
          = some exNewMember ∧
      (ensembleIter false (1 / 2) zeroCal zeroCal [0, 1] exEnsState
          exNewMember).ensembling_acc
          = exEnsState.ensembling_acc ++
            [update_ensemble_acc zeroCal zeroCal [0, 1]
              (ensembleIter false (1 / 2) zeroCal zeroCal [0, 1] exEnsState
                exNewMember).last_combined
              (ensembleAccuracy
                (ensembleIter false (1 / 2) zeroCal zeroCal [0, 1] exEnsState
                  exNewMember).last_combined [0, 1])])) :=
  ⟨by decide,
   ensemble_member_acceptance false (1 / 2) zeroCal zeroCal [0, 1] exEnsState
     exNewMember _ _ _ (by decide) rfl rfl rfl⟩

/-- Member 0's recorded output in the additive-combination run. -/
def c1Member0 : List (List ℚ) := [[1, 0], [1, 0]]

/-- Member 1's trained output (accepted: it lifts the combined accuracy from
1/2 to 1). -/
def c1Member1 : List (List ℚ) := [[0, 0], [0, 20]]

/-- Member 2's trained output (rejected: accuracy cannot exceed 1). -/
def c1Member2 : List (List ℚ) := [[0, 0], [0, 0]]

/-- Held-out targets of the additive-combination run. -/
def c1Targets : List ℕ := [0, 1]

/-- C1 (code bug): at ensembling iteration `i = 2` of an additive
(non-averaged) run with `boosting_lr = 1/10`, the combined output computed
by the controller is `[[1,0],[1,4]]`, but member 0's recorded output plus
`Σ_{j=1..2} boosting_lr · (member j's recorded output)` is `[[1,0],[1,2]]`
— whether the recorded outputs are taken as the trained outputs or as the
final stored dict entries (member 2's zeroed slot).  The `current_outs =
output_dict[0]` binding aliases member 0's stored tensor and `current_outs
+= boost_res` mutates it in place, so entry 0 itself ends up holding
`[[1,0],[1,4]]` instead of member 0's recorded output, and earlier members'
contributions are double-counted from iteration 2 on. -/
theorem ensemble_additive_combination_bug :
    (runEnsemble false (1 / 10) zeroCal zeroCal c1Targets c1Member0
        ⟨1 / 2, 0, 0⟩ [c1Member1, c1Member2]).last_combined
      = [[1, 0], [1, 4]] ∧
    addOut c1Member0 (addOut (smulOut (1 / 10) c1Member1)
        (smulOut (1 / 10) c1Member2)) = [[1, 0], [1, 2]] ∧
    addOut c1Member0 (addOut
        (smulOut (1 / 10)
          ((runEnsemble false (1 / 10) zeroCal zeroCal c1Targets c1Member0
              ⟨1 / 2, 0, 0⟩ [c1Member1, c1Member2]).output_dict.getD 1 []))
        (smulOut (1 / 10)
          ((runEnsemble false (1 / 10) zeroCal zeroCal c1Targets c1Member0
              ⟨1 / 2, 0, 0⟩ [c1Member1, c1Member2]).output_dict.getD 2 [])))
      = [[1, 0], [1, 2]] ∧
    (runEnsemble false (1 / 10) zeroCal zeroCal c1Targets c1Member0
        ⟨1 / 2, 0, 0⟩ [c1Member1, c1Member2]).output_dict.getD 0 []
      = [[1, 0], [1, 4]] ∧
    ([[1, 0], [1, 4]] : List (List ℚ)) ≠ [[1, 0], [1, 2]] := by
  norm_num [runEnsemble, ensembleIter, combineOutputs, ensembleAccuracy,
    npRound3, halfEvenRound, correctCount, predsOf, argmaxRow, addOut,
    smulOut, zerosLike, update_ensemble_acc, zeroCal, c1Member0, c1Member1,
    c1Member2, c1Targets, List.enum, List.enumFrom, List.foldl,
    List.zipWith, List.getLastD, List.getD]

/-! ## Prefix concatenation and restore (train.py lines 363-409)

The model's prefix slot holds a trainable embedding matrix
(`prefix_embedding.weight`), a parallel y-label vector and the prefix size;
`freeze_parameters_except_prefix` is the freeze-all-but-prefix toggle of the
external model collaborator, embedded as a flag.  `torch.randperm` is
external randomness, passed in as the permutation it returns. -/

/-- The prefix-related slots of the transformer model. -/
structure PTModel where
  prefix_embedding : List (List ℚ)
  prefix_y_embedding : List ℚ
  prefix_size : ℕ
  frozen_except_pfx : Bool
deriving DecidableEq

/-- One saved prior member's prefix (an entry of `prefix_weights_l`, as
built by `save_prefix_weights`, train.py line 422). -/
structure PrefixWeights where
  prefix_weights : List (List ℚ)
  prefix_y_labels : List ℚ
deriving DecidableEq

/-- The embedding-concatenator state. -/
structure EmbeddingConcatenator where
  original_embedding : List (List ℚ)
  original_y_embedding : List ℚ
  original_prefix_size : ℕ
  prefix_weights : List PrefixWeights
  concatenated_embedding : List (List ℚ)
  concatenated_y_embedding : List ℚ
  prefix_size : ℕ
deriving DecidableEq

/-- Modelled from the spec: the `EmbeddingConcatenator` constructor lives in
the repository's top-level `utils` module, which is not under `src/`; per
§3 ("the controller holding a separate backup copy during experiments") and
§4.6, constructing it from the model captures the model's current prefix
tensor, y-label tensor and size as the `original_*` backup, together with
the saved prior members' prefixes. -/
def mkEmbeddingConcatenator (m : PTModel) (pw : List PrefixWeights) :
    EmbeddingConcatenator :=
  { original_embedding := m.prefix_embedding,
    original_y_embedding := m.prefix_y_embedding,
    original_prefix_size := m.prefix_size,
    prefix_weights := pw,
    concatenated_embedding := [],
    concatenated_y_embedding := [],
    prefix_size := m.prefix_size }

/-- Concatenation strategy, as dispatched by `concat_embedding` on the
`do_concat` string: `"duplicate"`, or `"rand-init-k"` optionally modified by
`"size-ctl"` and `"perm"`. -/
inductive ConcatMethod where
  | duplicate
  | randInit (k : ℕ) (size_ctl : Bool) (perm : Bool)
deriving DecidableEq

/-- Installing the concatenated prefix into the model (train.py lines
399-401): `model.prefix_embedding.weight = nn.Parameter(...)` replaces the
parameter with a fresh tensor. -/
def installConcat (ec : EmbeddingConcatenator) (m : PTModel) : PTModel :=
  { m with prefix_embedding := ec.concatenated_embedding,
           prefix_y_embedding := ec.concatenated_y_embedding,
           prefix_size := ec.prefix_size }

/-- `concat_embedding` (train.py lines 363-402).  `rsel n` is the
permutation `torch.randperm(n)` returns. -/
def concat_embedding (rsel : ℕ → List ℕ) (ec : EmbeddingConcatenator)
    (m : PTModel) (method : ConcatMethod) :
    EmbeddingConcatenator × PTModel :=
  match method with
  | .duplicate =>
    let ec' := { ec with
      concatenated_embedding := ec.original_embedding ++ ec.original_embedding,
      concatenated_y_embedding :=
        ec.original_y_embedding ++ ec.original_y_embedding,
      prefix_size := ec.original_prefix_size * 2 }
    (ec', installConcat ec' m)
  | .randInit k size_ctl perm =>
    let num_to_concat := min k (ec.prefix_weights.length + 1)
    if num_to_concat = 1 then
      let ec' := { ec with
        concatenated_embedding := ec.original_embedding,
        concatenated_y_embedding := ec.original_y_embedding,
        prefix_size := ec.original_prefix_size }
      (ec', installConcat ec' m)
    else
      let cat_emb := ec.original_embedding ++
        ((ec.prefix_weights.take (num_to_concat - 1)).map
          (fun p => p.prefix_weights)).flatten
      let cat_y := ec.original_y_embedding ++
        ((ec.prefix_weights.take (num_to_concat - 1)).map
          (fun p => p.prefix_y_labels)).flatten
      if size_ctl then
        let sel :=
          if perm then (rsel cat_emb.length).take ec.original_prefix_size
          else
            let emb_size := ec.original_prefix_size / num_to_concat
            let orig_emb_size := ec.original_embedding.length
            ((List.range num_to_concat).map (fun j =>
              (List.range emb_size).map
                (fun off => j * orig_emb_size + off))).flatten
        let ec' := { ec with
          concatenated_embedding := sel.map (fun idx => cat_emb.getD idx []),
          concatenated_y_embedding := sel.map (fun idx => cat_y.getD idx 0),
          prefix_size := sel.length }
        (ec', installConcat ec' m)
      else
        let ec' := { ec with
          concatenated_embedding := cat_emb,
          concatenated_y_embedding := cat_y,
          prefix_size := ec.original_prefix_size * num_to_concat }
        (ec', installConcat ec' m)

/-- `restore_embedding` (train.py lines 404-409): put the backed-up
original prefix tensor, y-label tensor and size back into the model and
re-apply `freeze_parameters_except_prefix`. -/
def restore_embedding (ec : EmbeddingConcatenator) (m : PTModel) : PTModel :=
  { m with prefix_embedding := ec.original_embedding,
           prefix_y_embedding := ec.original_y_embedding,
           prefix_size := ec.original_prefix_size,
           frozen_except_pfx := true }

/-- C7: for every concatenation strategy (duplicate, rand-init-k, with or
without the size-ctl modifier, permuted or sliced), restoring after
concatenation sets the model's prefix embedding tensor, prefix y-label
tensor and prefix size bit-identical to the values captured before
concatenation, and re-applies the freeze-all-but-prefix policy. -/
theorem prefix_restore_exact (m : PTModel) (pw : List PrefixWeights)
    (method : ConcatMethod) (rsel : ℕ → List ℕ) :
    (restore_embedding
        (concat_embedding rsel (mkEmbeddingConcatenator m pw) m method).1
        (concat_embedding rsel (mkEmbeddingConcatenator m pw) m
          method).2).prefix_embedding = m.prefix_embedding ∧
    (restore_embedding
        (concat_embedding rsel (mkEmbeddingConcatenator m pw) m method).1
        (concat_embedding rsel (mkEmbeddingConcatenator m pw) m
          method).2).prefix_y_embedding = m.prefix_y_embedding ∧
    (restore_embedding
        (concat_embedding rsel (mkEmbeddingConcatenator m pw) m method).1
        (concat_embedding rsel (mkEmbeddingConcatenator m pw) m
          method).2).prefix_size = m.prefix_size ∧
    (restore_embedding
        (concat_embedding rsel (mkEmbeddingConcatenator m pw) m method).1
        (concat_embedding rsel (mkEmbeddingConcatenator m pw) m
          method).2).frozen_except_pfx = true := by
  cases method with
  | duplicate => exact ⟨rfl, rfl, rfl, rfl⟩
  | randInit k size_ctl perm =>
    simp only [concat_embedding, restore_embedding, mkEmbeddingConcatenator]
    split
    · simp
    · split <;> simp
